import Mathlib

/-!
Verification of the record-loader module graphrag/query/input/loaders/dfs.py.

The dataframe is embedded as a list of rows; a row is an association list
from column names to cell values (what pandas to_dict("records") yields).
Machine floats never matter to the properties below, so float cells carry an
integer payload used only as an opaque token. The coercion helpers imported
by dfs.py from graphrag/query/input/loaders/utils.py are not part of the
sources here, so they are modelled from the specification (spec.md section
4.1); each such definition is marked in its doc comment. Everything else is
translated directly from dfs.py.
-/

set_option maxHeartbeats 1000000
set_option linter.unusedVariables false

namespace GraphRag

/-- Scalar cell payloads: null, strings, ints and (opaquely modelled) floats. -/
inductive Scalar where
  | snull : Scalar
  | sstr : String → Scalar
  | sint : Int → Scalar
  | sfloat : Int → Scalar
  deriving DecidableEq, Repr

/-- Cell values: scalars, flat lists of scalars, and flat scalar dictionaries. -/
inductive Value where
  | vnull : Value
  | vstr : String → Value
  | vint : Int → Value
  | vfloat : Int → Value
  | vlist : List Scalar → Value
  | vdict : List (Scalar × Scalar) → Value
  deriving DecidableEq, Repr

/-- A row mapping, column name to raw cell value (first binding wins). -/
abbrev Row := List (String × Value)

/-- Column lookup in a row mapping. -/
def rowLookup (row : Row) (c : String) : Option Value :=
  List.lookup c row

/-- Textual form of a scalar, mirroring Python str() on the cases relied upon. -/
def scalarToString : Scalar → String
  | .snull => "None"
  | .sstr s => s
  | .sint n => toString n
  | .sfloat n => toString n ++ ".0"

/-- Textual form of a cell value; only the scalar cases are load bearing. -/
def valueToString : Value → String
  | .vnull => "None"
  | .vstr s => s
  | .vint n => toString n
  | .vfloat n => toString n ++ ".0"
  | .vlist vs => String.intercalate ", " (vs.map scalarToString)
  | .vdict _ => "dict"

/-- Numeric reading of a cell value, mirroring Python int()/float() coercion. -/
def valueToInt : Value → Option Int
  | .vint n => some n
  | .vfloat n => some n
  | .vstr s => s.toInt?
  | _ => none

/-- Numeric reading of a scalar, for list element coercion. -/
def scalarToInt : Scalar → Option Int
  | .snull => none
  | .sstr s => s.toInt?
  | .sint n => some n
  | .sfloat n => some n

/-- View of a non-null, non-sequence cell as a scalar, for single element wrap. -/
def asScalar : Value → Option Scalar
  | .vstr s => some (.sstr s)
  | .vint n => some (.sint n)
  | .vfloat n => some (.sfloat n)
  | _ => none

/-- Modelled from the spec: the two error kinds of the missing helper module
graphrag/query/input/loaders/utils.py — MissingColumnError when a required
bound column does not exist, CoercionError when a present value cannot be
converted; both carry the offending column name. -/
inductive LoadError where
  | missingColumn : String → LoadError
  | coercion : String → LoadError
  deriving DecidableEq, Repr

/-- Element coercion modes appearing in dfs.py: no item type, item type str,
and item type float. -/
inductive ItemType where
  | passthrough : ItemType
  | toStr : ItemType
  | toFloat : ItemType
  deriving DecidableEq, Repr

/-- Modelled from the spec: per element coercion inside list cells (spec 4.1,
optional list: each element coerced to the item type, default pass-through). -/
def coerceItem (c : String) (it : ItemType) (s : Scalar) : Except LoadError Scalar :=
  match it with
  | .passthrough => .ok s
  | .toStr => .ok (.sstr (scalarToString s))
  | .toFloat =>
    match scalarToInt s with
    | some n => .ok (.sfloat n)
    | none => .error (.coercion c)

/-- Error-propagating map, the semantics of a Python list comprehension whose
body may raise: rows are processed in order and the first error aborts. -/
def mapE {α β : Type} (f : α → Except LoadError β) : List α → Except LoadError (List β)
  | [] => .ok []
  | x :: xs =>
    match f x with
    | .error e => .error e
    | .ok y =>
      match mapE f xs with
      | .error e => .error e
      | .ok ys => .ok (y :: ys)

/-- Modelled from the spec: required-string coercion to_str of the missing
utils.py (spec 4.1): MissingColumnError if the bound column is absent (or the
binding itself is null), CoercionError if the cell value is null, otherwise
the textual representation of the cell. -/
def to_str (row : Row) (col : Option String) : Except LoadError String :=
  match col with
  | none => .error (.missingColumn "None")
  | some c =>
    match rowLookup row c with
    | none => .error (.missingColumn c)
    | some .vnull => .error (.coercion c)
    | some v => .ok (valueToString v)

/-- Modelled from the spec: optional-string coercion to_optional_str of the
missing utils.py (spec 4.1): null when the column is unbound, absent, or the
cell value is null; otherwise the textual representation. -/
def to_optional_str (row : Row) (col : Option String) : Option String :=
  match col with
  | none => none
  | some c =>
    match rowLookup row c with
    | none => none
    | some .vnull => none
    | some v => some (valueToString v)

/-- Modelled from the spec: optional-int coercion to_optional_int of the
missing utils.py (spec 4.1): null under the absence conditions, otherwise a
numeric conversion that fails with CoercionError on non-numeric values. -/
def to_optional_int (row : Row) (col : Option String) : Except LoadError (Option Int) :=
  match col with
  | none => .ok none
  | some c =>
    match rowLookup row c with
    | none => .ok none
    | some .vnull => .ok none
    | some v =>
      match valueToInt v with
      | some n => .ok (some n)
      | none => .error (.coercion c)

/-- Modelled from the spec: optional-float coercion to_optional_float of the
missing utils.py (spec 4.1), same shape as to_optional_int with floats
modelled opaquely. -/
def to_optional_float (row : Row) (col : Option String) : Except LoadError (Option Int) :=
  match col with
  | none => .ok none
  | some c =>
    match rowLookup row c with
    | none => .ok none
    | some .vnull => .ok none
    | some v =>
      match valueToInt v with
      | some n => .ok (some n)
      | none => .error (.coercion c)

/-- Modelled from the spec: optional-list coercion to_optional_list of the
missing utils.py (spec 4.1): null under absence conditions; a sequence cell
has each element coerced in order; a scalar cell is wrapped into a single
element list (the documented leniency) and coerced. -/
def to_optional_list (row : Row) (col : Option String) (it : ItemType) :
    Except LoadError (Option (List Scalar)) :=
  match col with
  | none => .ok none
  | some c =>
    match rowLookup row c with
    | none => .ok none
    | some .vnull => .ok none
    | some (.vlist vs) =>
      match mapE (coerceItem c it) vs with
      | .error e => .error e
      | .ok ys => .ok (some ys)
    | some v =>
      match asScalar v with
      | none => .error (.coercion c)
      | some s =>
        match coerceItem c it s with
        | .error e => .error e
        | .ok y => .ok (some [y])

/-- Modelled from the spec: required-list coercion to_list of the missing
utils.py (spec 3 and 4.1 step 4): the empty list when the column is unbound
or absent or the cell is null, otherwise as to_optional_list. -/
def to_list (row : Row) (col : Option String) (it : ItemType) :
    Except LoadError (List Scalar) :=
  match col with
  | none => .ok []
  | some c =>
    match rowLookup row c with
    | none => .ok []
    | some .vnull => .ok []
    | some (.vlist vs) => mapE (coerceItem c it) vs
    | some v =>
      match asScalar v with
      | none => .error (.coercion c)
      | some s =>
        match coerceItem c it s with
        | .error e => .error e
        | .ok y => .ok [y]

/-- Modelled from the spec: optional-mapping coercion to_optional_dict of the
missing utils.py (spec 4.1): null under absence conditions; a mapping cell
has keys and values coerced to strings; anything else is a coercion error. -/
def to_optional_dict (row : Row) (col : Option String) :
    Except LoadError (Option (List (String × String))) :=
  match col with
  | none => .ok none
  | some c =>
    match rowLookup row c with
    | none => .ok none
    | some .vnull => .ok none
    | some (.vdict kvs) =>
      .ok (some (kvs.map (fun p => (scalarToString p.1, scalarToString p.2))))
    | some _ => .error (.coercion c)

/-- Python truthiness of an optional string parameter: None and the empty
string are falsy (the short_id_col and covariate_type_col conditionals). -/
def truthyStr : Option String → Bool
  | none => false
  | some s => !(s == "")

/-- The record produced for row i by _prepare_records: the zero-based reset
index is exposed as the Index column, shadowing any same-named column. -/
def withIndex (i : Nat) (r : Row) : Row :=
  ("Index", Value.vint (Int.ofNat i)) :: r

/-- Tail of _prepare_records, carrying the next index value. -/
def prepareFrom (k : Nat) : List Row → List Row
  | [] => []
  | r :: rs => withIndex k r :: prepareFrom (k + 1) rs

/-- Embedding of _prepare_records (dfs.py line 25): reset the index to the
positions 0..N-1, exposed per record under the column name Index. -/
def _prepare_records (df : List Row) : List Row :=
  prepareFrom 0 df

/-- Stringified Index cell of a prepared record, Python str(row["Index"]). -/
def indexStr (row : Row) : String :=
  valueToString ((rowLookup row "Index").getD Value.vnull)

/-- The short_id expression shared by five loaders: to_optional_str if the
column binding is truthy, else the stringified Index. -/
def shortIdOf (row : Row) (col : Option String) : Option String :=
  if truthyStr col then to_optional_str row col else some (indexStr row)

/-- The covariate_type expression of read_covariates (dfs.py line 135):
to_str if the column binding is truthy, else the literal claim. -/
def ctypeOf (row : Row) (col : Option String) : Except LoadError String :=
  if truthyStr col then to_str row col else .ok "claim"

/-- The attributes expression shared by all loaders (dfs.py lines 67-71):
a raw, uncoerced copy of the listed columns keyed by column name, with
row.get semantics (missing column gives a null value); None or an empty
list of columns gives no attributes mapping at all. -/
def mkAttributes (row : Row) (cols : Option (List String)) :
    Option (List (String × Value)) :=
  match cols with
  | none => none
  | some [] => none
  | some cs => some (cs.map (fun c => (c, (rowLookup row c).getD Value.vnull)))

/-- Output record of read_entities, fields as constructed at dfs.py line 52. -/
structure Entity where
  id : String
  short_id : Option String
  title : String
  type : Option String
  description : Option String
  name_embedding : Option (List Scalar)
  description_embedding : Option (List Scalar)
  community_ids : Option (List Scalar)
  text_unit_ids : Option (List Scalar)
  rank : Option Int
  attributes : Option (List (String × Value))
  deriving DecidableEq, Repr

/-- Output record of read_relationships (dfs.py line 93). -/
structure Relationship where
  id : String
  short_id : Option String
  source : String
  target : String
  description : Option String
  description_embedding : Option (List Scalar)
  weight : Option Int
  text_unit_ids : Option (List Scalar)
  rank : Option Int
  attributes : Option (List (String × Value))
  deriving DecidableEq, Repr

/-- Output record of read_covariates (dfs.py line 129). -/
structure Covariate where
  id : String
  short_id : Option String
  subject_id : String
  covariate_type : String
  text_unit_ids : Option (List Scalar)
  attributes : Option (List (String × Value))
  deriving DecidableEq, Repr

/-- Output record of read_communities (dfs.py line 165). -/
structure Community where
  id : String
  short_id : Option String
  title : String
  level : String
  entity_ids : Option (List Scalar)
  relationship_ids : Option (List Scalar)
  covariate_ids : Option (List (String × String))
  parent : String
  children : List Scalar
  attributes : Option (List (String × Value))
  deriving DecidableEq, Repr

/-- Output record of read_community_reports (dfs.py line 204). -/
structure CommunityReport where
  id : String
  short_id : Option String
  title : String
  community_id : String
  summary : String
  full_content : String
  rank : Option Int
  full_content_embedding : Option (List Scalar)
  attributes : Option (List (String × Value))
  deriving DecidableEq, Repr

/-- Output record of read_text_units (dfs.py line 241). -/
structure TextUnit where
  id : String
  short_id : Option String
  text : String
  entity_ids : Option (List Scalar)
  relationship_ids : Option (List Scalar)
  covariate_ids : Option (List (String × String))
  n_tokens : Option Int
  document_ids : Option (List Scalar)
  attributes : Option (List (String × Value))
  deriving DecidableEq, Repr

/-- Column bindings of read_entities (dfs.py lines 35-47), one field per
keyword parameter. -/
structure EntityBindings where
  id_col : String
  short_id_col : Option String
  title_col : String
  type_col : Option String
  description_col : Option String
  name_embedding_col : Option String
  description_embedding_col : Option String
  community_col : Option String
  text_unit_ids_col : Option String
  rank_col : Option String
  attributes_cols : Option (List String)
  deriving DecidableEq, Repr

/-- Default parameter values of read_entities. -/
def defaultEntityBindings : EntityBindings :=
  ⟨"id", some "human_readable_id", "title", some "type", some "description",
   some "name_embedding", some "description_embedding", some "community_ids",
   some "text_unit_ids", some "degree", none⟩

/-- Column bindings of read_relationships (dfs.py lines 77-88). -/
structure RelationshipBindings where
  id_col : String
  short_id_col : Option String
  source_col : String
  target_col : String
  description_col : Option String
  rank_col : Option String
  description_embedding_col : Option String
  weight_col : Option String
  text_unit_ids_col : Option String
  attributes_cols : Option (List String)
  deriving DecidableEq, Repr

/-- Default parameter values of read_relationships. -/
def defaultRelationshipBindings : RelationshipBindings :=
  ⟨"id", some "human_readable_id", "source", "target", some "description",
   some "combined_degree", some "description_embedding", some "weight",
   some "text_unit_ids", none⟩

/-- Column bindings of read_covariates (dfs.py lines 117-124). -/
structure CovariateBindings where
  id_col : String
  short_id_col : Option String
  subject_col : String
  covariate_type_col : Option String
  text_unit_ids_col : Option String
  attributes_cols : Option (List String)
  deriving DecidableEq, Repr

/-- Default parameter values of read_covariates. -/
def defaultCovariateBindings : CovariateBindings :=
  ⟨"id", some "human_readable_id", "subject_id", some "type",
   some "text_unit_ids", none⟩

/-- Column bindings of read_communities (dfs.py lines 149-160). -/
structure CommunityBindings where
  id_col : String
  short_id_col : Option String
  title_col : String
  level_col : String
  entities_col : Option String
  relationships_col : Option String
  covariates_col : Option String
  parent_col : Option String
  children_col : Option String
  attributes_cols : Option (List String)
  deriving DecidableEq, Repr

/-- Default parameter values of read_communities. -/
def defaultCommunityBindings : CommunityBindings :=
  ⟨"id", some "community", "title", "level", some "entity_ids",
   some "relationship_ids", some "covariate_ids", some "parent",
   some "children", none⟩

/-- Column bindings of read_community_reports (dfs.py lines 189-199). -/
structure CommunityReportBindings where
  id_col : String
  short_id_col : Option String
  title_col : String
  community_col : String
  summary_col : String
  content_col : String
  rank_col : Option String
  content_embedding_col : Option String
  attributes_cols : Option (List String)
  deriving DecidableEq, Repr

/-- Default parameter values of read_community_reports. -/
def defaultCommunityReportBindings : CommunityReportBindings :=
  ⟨"id", some "community", "title", "community", "summary", "full_content",
   some "rank", some "full_content_embedding", none⟩

/-- Column bindings of read_text_units (dfs.py lines 227-236); there is no
short_id parameter at all. -/
structure TextUnitBindings where
  id_col : String
  text_col : String
  entities_col : Option String
  relationships_col : Option String
  covariates_col : Option String
  tokens_col : Option String
  document_ids_col : Option String
  attributes_cols : Option (List String)
  deriving DecidableEq, Repr

/-- Default parameter values of read_text_units. -/
def defaultTextUnitBindings : TextUnitBindings :=
  ⟨"id", "text", some "entity_ids", some "relationship_ids",
   some "covariate_ids", some "n_tokens", some "document_ids",
   some ["metadata"]⟩

/-- Construction of one Entity from one prepared record, field expressions
and their evaluation order as in dfs.py lines 52-72. -/
def entityFromRow (b : EntityBindings) (row : Row) : Except LoadError Entity :=
  match to_str row (some b.id_col) with
  | .error e => .error e
  | .ok idv =>
    match to_str row (some b.title_col) with
    | .error e => .error e
    | .ok titlev =>
      match to_optional_list row b.name_embedding_col .toFloat with
      | .error e => .error e
      | .ok nameEmb =>
        match to_optional_list row b.description_embedding_col .toFloat with
        | .error e => .error e
        | .ok descEmb =>
          match to_optional_list row b.community_col .toStr with
          | .error e => .error e
          | .ok commIds =>
            match to_optional_list row b.text_unit_ids_col .passthrough with
            | .error e => .error e
            | .ok tuIds =>
              match to_optional_int row b.rank_col with
              | .error e => .error e
              | .ok rankv =>
                .ok ⟨idv, shortIdOf row b.short_id_col, titlev,
                  to_optional_str row b.type_col,
                  to_optional_str row b.description_col,
                  nameEmb, descEmb, commIds, tuIds, rankv,
                  mkAttributes row b.attributes_cols⟩

/-- Embedding of read_entities (dfs.py line 35). -/
def read_entities (df : List Row) (b : EntityBindings) :
    Except LoadError (List Entity) :=
  mapE (entityFromRow b) (_prepare_records df)

/-- Construction of one Relationship from one prepared record, field
expressions and their evaluation order as in dfs.py lines 93-111. -/
def relationshipFromRow (b : RelationshipBindings) (row : Row) :
    Except LoadError Relationship :=
  match to_str row (some b.id_col) with
  | .error e => .error e
  | .ok idv =>
    match to_str row (some b.source_col) with
    | .error e => .error e
    | .ok sourcev =>
      match to_str row (some b.target_col) with
      | .error e => .error e
      | .ok targetv =>
        match to_optional_list row b.description_embedding_col .toFloat with
        | .error e => .error e
        | .ok descEmb =>
          match to_optional_float row b.weight_col with
          | .error e => .error e
          | .ok weightv =>
            match to_optional_list row b.text_unit_ids_col .toStr with
            | .error e => .error e
            | .ok tuIds =>
              match to_optional_int row b.rank_col with
              | .error e => .error e
              | .ok rankv =>
                .ok ⟨idv, shortIdOf row b.short_id_col, sourcev, targetv,
                  to_optional_str row b.description_col,
                  descEmb, weightv, tuIds, rankv,
                  mkAttributes row b.attributes_cols⟩

/-- Embedding of read_relationships (dfs.py line 77). -/
def read_relationships (df : List Row) (b : RelationshipBindings) :
    Except LoadError (List Relationship) :=
  mapE (relationshipFromRow b) (_prepare_records df)

/-- Construction of one Covariate from one prepared record, field
expressions and their evaluation order as in dfs.py lines 129-143. -/
def covariateFromRow (b : CovariateBindings) (row : Row) :
    Except LoadError Covariate :=
  match to_str row (some b.id_col) with
  | .error e => .error e
  | .ok idv =>
    match to_str row (some b.subject_col) with
    | .error e => .error e
    | .ok subjv =>
      match ctypeOf row b.covariate_type_col with
      | .error e => .error e
      | .ok ctypev =>
        match to_optional_list row b.text_unit_ids_col .toStr with
        | .error e => .error e
        | .ok tuIds =>
          .ok ⟨idv, shortIdOf row b.short_id_col, subjv, ctypev, tuIds,
            mkAttributes row b.attributes_cols⟩

/-- Embedding of read_covariates (dfs.py line 117). -/
def read_covariates (df : List Row) (b : CovariateBindings) :
    Except LoadError (List Covariate) :=
  mapE (covariateFromRow b) (_prepare_records df)

/-- Construction of one Community from one prepared record, field
expressions and their evaluation order as in dfs.py lines 165-183; note the
parent field goes through required-string coercion on an optional binding. -/
def communityFromRow (b : CommunityBindings) (row : Row) :
    Except LoadError Community :=
  match to_str row (some b.id_col) with
  | .error e => .error e
  | .ok idv =>
    match to_str row (some b.title_col) with
    | .error e => .error e
    | .ok titlev =>
      match to_str row (some b.level_col) with
      | .error e => .error e
      | .ok levelv =>
        match to_optional_list row b.entities_col .toStr with
        | .error e => .error e
        | .ok entIds =>
          match to_optional_list row b.relationships_col .toStr with
          | .error e => .error e
          | .ok relIds =>
            match to_optional_dict row b.covariates_col with
            | .error e => .error e
            | .ok covIds =>
              match to_str row b.parent_col with
              | .error e => .error e
              | .ok parentv =>
                match to_list row b.children_col .passthrough with
                | .error e => .error e
                | .ok childrenv =>
                  .ok ⟨idv, shortIdOf row b.short_id_col, titlev, levelv,
                    entIds, relIds, covIds, parentv, childrenv,
                    mkAttributes row b.attributes_cols⟩

/-- Embedding of read_communities (dfs.py line 149). -/
def read_communities (df : List Row) (b : CommunityBindings) :
    Except LoadError (List Community) :=
  mapE (communityFromRow b) (_prepare_records df)

/-- Construction of one CommunityReport from one prepared record, field
expressions and their evaluation order as in dfs.py lines 204-221. -/
def communityReportFromRow (b : CommunityReportBindings) (row : Row) :
    Except LoadError CommunityReport :=
  match to_str row (some b.id_col) with
  | .error e => .error e
  | .ok idv =>
    match to_str row (some b.title_col) with
    | .error e => .error e
    | .ok titlev =>
      match to_str row (some b.community_col) with
      | .error e => .error e
      | .ok commv =>
        match to_str row (some b.summary_col) with
        | .error e => .error e
        | .ok summaryv =>
          match to_str row (some b.content_col) with
          | .error e => .error e
          | .ok contentv =>
            match to_optional_float row b.rank_col with
            | .error e => .error e
            | .ok rankv =>
              match to_optional_list row b.content_embedding_col .toFloat with
              | .error e => .error e
              | .ok contentEmb =>
                .ok ⟨idv, shortIdOf row b.short_id_col, titlev, commv,
                  summaryv, contentv, rankv, contentEmb,
                  mkAttributes row b.attributes_cols⟩

/-- Embedding of read_community_reports (dfs.py line 189). -/
def read_community_reports (df : List Row) (b : CommunityReportBindings) :
    Except LoadError (List CommunityReport) :=
  mapE (communityReportFromRow b) (_prepare_records df)

/-- Construction of one TextUnit from one prepared record, field expressions
and their evaluation order as in dfs.py lines 241-256; short_id is always
the stringified Index, with no column binding for it. -/
def textUnitFromRow (b : TextUnitBindings) (row : Row) :
    Except LoadError TextUnit :=
  match to_str row (some b.id_col) with
  | .error e => .error e
  | .ok idv =>
    match to_str row (some b.text_col) with
    | .error e => .error e
    | .ok textv =>
      match to_optional_list row b.entities_col .toStr with
      | .error e => .error e
      | .ok entIds =>
        match to_optional_list row b.relationships_col .toStr with
        | .error e => .error e
        | .ok relIds =>
          match to_optional_dict row b.covariates_col with
          | .error e => .error e
          | .ok covIds =>
            match to_optional_int row b.tokens_col with
            | .error e => .error e
            | .ok tokensv =>
              match to_optional_list row b.document_ids_col .toStr with
              | .error e => .error e
              | .ok docIds =>
                .ok ⟨idv, some (indexStr row), textv, entIds, relIds,
                  covIds, tokensv, docIds,
                  mkAttributes row b.attributes_cols⟩

/-- Embedding of read_text_units (dfs.py line 227). -/
def read_text_units (df : List Row) (b : TextUnitBindings) :
    Except LoadError (List TextUnit) :=
  mapE (textUnitFromRow b) (_prepare_records df)

theorem mapE_ok_length {α β : Type} {f : α → Except LoadError β} :
    ∀ {xs : List α} {ys : List β}, mapE f xs = .ok ys → ys.length = xs.length := by
  intro xs
  induction xs with
  | nil =>
    intro ys h
    simp [mapE] at h
    simp [h.symm]
  | cons x xs ih =>
    intro ys h
    unfold mapE at h
    cases h1 : f x with
    | error e => rw [h1] at h; exact Except.noConfusion h
    | ok y =>
      rw [h1] at h
      cases h2 : mapE f xs with
      | error e => rw [h2] at h; exact Except.noConfusion h
      | ok zs =>
        rw [h2] at h
        injection h with h3
        subst h3
        simp [ih h2]

theorem mapE_ok_get {α β : Type} {f : α → Except LoadError β} :
    ∀ {xs : List α} {ys : List β}, mapE f xs = .ok ys →
      ∀ (i : Nat) (h1 : i < xs.length) (h2 : i < ys.length),
        f (xs.get ⟨i, h1⟩) = .ok (ys.get ⟨i, h2⟩) := by
  intro xs
  induction xs with
  | nil =>
    intro ys h i h1 h2
    exact absurd h1 (by simp)
  | cons x xs ih =>
    intro ys h i h1 h2
    unfold mapE at h
    cases h3 : f x with
    | error e => rw [h3] at h; exact Except.noConfusion h
    | ok y =>
      rw [h3] at h
      cases h4 : mapE f xs with
      | error e => rw [h4] at h; exact Except.noConfusion h
      | ok zs =>
        rw [h4] at h
        injection h with h5
        subst h5
        cases i with
        | zero => simpa using h3
        | succ j =>
          have hj1 : j < xs.length := Nat.lt_of_succ_lt_succ h1
          have hj2 : j < zs.length := Nat.lt_of_succ_lt_succ h2
          simpa using ih h4 j hj1 hj2

theorem prepareFrom_length : ∀ (k : Nat) (df : List Row),
    (prepareFrom k df).length = df.length := by
  intro k df
  induction df generalizing k with
  | nil => simp [prepareFrom]
  | cons r rs ih => simp [prepareFrom, ih]

theorem prepareFrom_get : ∀ (df : List Row) (k i : Nat)
    (h1 : i < (prepareFrom k df).length) (h2 : i < df.length),
    (prepareFrom k df).get ⟨i, h1⟩ = withIndex (k + i) (df.get ⟨i, h2⟩) := by
  intro df
  induction df with
  | nil => intro k i h1 h2; exact absurd h2 (by simp)
  | cons r rs ih =>
    intro k i h1 h2
    cases i with
    | zero => simp [prepareFrom]
    | succ j =>
      have hj1 : j < (prepareFrom (k + 1) rs).length := by
        simpa [prepareFrom] using h1
      have hj2 : j < rs.length := Nat.lt_of_succ_lt_succ h2
      have hrec := ih (k + 1) j hj1 hj2
      have harith : k + 1 + j = k + (j + 1) := by omega
      rw [harith] at hrec
      simpa [prepareFrom] using hrec

/-- Combined shape lemma: a successful load over prepared records has the
length of the table and its i-th element produced from the i-th row tagged
with index i. -/
theorem mapE_prepare_ok {β : Type} {f : Row → Except LoadError β}
    {df : List Row} {l : List β} (h : mapE f (_prepare_records df) = .ok l) :
    l.length = df.length ∧
    ∀ (i : Nat) (h1 : i < df.length) (h2 : i < l.length),
      f (withIndex i (df.get ⟨i, h1⟩)) = .ok (l.get ⟨i, h2⟩) := by
  have hlen : l.length = df.length := by
    have := mapE_ok_length h
    simpa [_prepare_records, prepareFrom_length] using this
  refine ⟨hlen, ?_⟩
  intro i h1 h2
  have hp : i < (_prepare_records df).length := by
    simpa [_prepare_records, prepareFrom_length] using h1
  have hget := mapE_ok_get h i hp h2
  have hrow : (_prepare_records df).get ⟨i, hp⟩ = withIndex i (df.get ⟨i, h1⟩) := by
    have := prepareFrom_get df 0 i hp h1
    simpa [_prepare_records] using this
  rw [hrow] at hget
  exact hget

theorem toString_intOfNat (i : Nat) : toString (Int.ofNat i) = toString i := rfl

theorem indexStr_withIndex (i : Nat) (r : Row) :
    indexStr (withIndex i r) = toString i := rfl

/-- Field projections of a successfully constructed Entity. -/
theorem entityFromRow_ok (b : EntityBindings) (row : Row) (e : Entity)
    (h : entityFromRow b row = .ok e) :
    to_str row (some b.id_col) = .ok e.id ∧
    e.short_id = shortIdOf row b.short_id_col ∧
    to_str row (some b.title_col) = .ok e.title ∧
    e.type = to_optional_str row b.type_col ∧
    e.description = to_optional_str row b.description_col ∧
    to_optional_list row b.name_embedding_col .toFloat = .ok e.name_embedding ∧
    to_optional_list row b.description_embedding_col .toFloat
      = .ok e.description_embedding ∧
    to_optional_list row b.community_col .toStr = .ok e.community_ids ∧
    to_optional_list row b.text_unit_ids_col .passthrough = .ok e.text_unit_ids ∧
    to_optional_int row b.rank_col = .ok e.rank ∧
    e.attributes = mkAttributes row b.attributes_cols := by
  unfold entityFromRow at h
  repeat' split at h
  all_goals try exact Except.noConfusion h
  injection h with h2
  subst h2
  refine ⟨?_, rfl, ?_, rfl, rfl, ?_, ?_, ?_, ?_, ?_, rfl⟩ <;> assumption

/-- Field projections of a successfully constructed Relationship. -/
theorem relationshipFromRow_ok (b : RelationshipBindings) (row : Row)
    (r : Relationship) (h : relationshipFromRow b row = .ok r) :
    to_str row (some b.id_col) = .ok r.id ∧
    r.short_id = shortIdOf row b.short_id_col ∧
    to_str row (some b.source_col) = .ok r.source ∧
    to_str row (some b.target_col) = .ok r.target ∧
    r.description = to_optional_str row b.description_col ∧
    to_optional_list row b.description_embedding_col .toFloat
      = .ok r.description_embedding ∧
    to_optional_float row b.weight_col = .ok r.weight ∧
    to_optional_list row b.text_unit_ids_col .toStr = .ok r.text_unit_ids ∧
    to_optional_int row b.rank_col = .ok r.rank ∧
    r.attributes = mkAttributes row b.attributes_cols := by
  unfold relationshipFromRow at h
  repeat' split at h
  all_goals try exact Except.noConfusion h
  injection h with h2
  subst h2
  refine ⟨?_, rfl, ?_, ?_, rfl, ?_, ?_, ?_, ?_, rfl⟩ <;> assumption

/-- Field projections of a successfully constructed Covariate. -/
theorem covariateFromRow_ok (b : CovariateBindings) (row : Row)
    (c : Covariate) (h : covariateFromRow b row = .ok c) :
    to_str row (some b.id_col) = .ok c.id ∧
    c.short_id = shortIdOf row b.short_id_col ∧
    to_str row (some b.subject_col) = .ok c.subject_id ∧
    ctypeOf row b.covariate_type_col = .ok c.covariate_type ∧
    to_optional_list row b.text_unit_ids_col .toStr = .ok c.text_unit_ids ∧
    c.attributes = mkAttributes row b.attributes_cols := by
  unfold covariateFromRow at h
  repeat' split at h
  all_goals try exact Except.noConfusion h
  injection h with h2
  subst h2
  refine ⟨?_, rfl, ?_, ?_, ?_, rfl⟩ <;> assumption

/-- Field projections of a successfully constructed Community. -/
theorem communityFromRow_ok (b : CommunityBindings) (row : Row)
    (c : Community) (h : communityFromRow b row = .ok c) :
    to_str row (some b.id_col) = .ok c.id ∧
    c.short_id = shortIdOf row b.short_id_col ∧
    to_str row (some b.title_col) = .ok c.title ∧
    to_str row (some b.level_col) = .ok c.level ∧
    to_optional_list row b.entities_col .toStr = .ok c.entity_ids ∧
    to_optional_list row b.relationships_col .toStr = .ok c.relationship_ids ∧
    to_optional_dict row b.covariates_col = .ok c.covariate_ids ∧
    to_str row b.parent_col = .ok c.parent ∧
    to_list row b.children_col .passthrough = .ok c.children ∧
    c.attributes = mkAttributes row b.attributes_cols := by
  unfold communityFromRow at h
  repeat' split at h
  all_goals try exact Except.noConfusion h
  injection h with h2
  subst h2
  refine ⟨?_, rfl, ?_, ?_, ?_, ?_, ?_, ?_, ?_, rfl⟩ <;> assumption

/-- Field projections of a successfully constructed CommunityReport. -/
theorem communityReportFromRow_ok (b : CommunityReportBindings) (row : Row)
    (c : CommunityReport) (h : communityReportFromRow b row = .ok c) :
    to_str row (some b.id_col) = .ok c.id ∧
    c.short_id = shortIdOf row b.short_id_col ∧
    to_str row (some b.title_col) = .ok c.title ∧
    to_str row (some b.community_col) = .ok c.community_id ∧
    to_str row (some b.summary_col) = .ok c.summary ∧
    to_str row (some b.content_col) = .ok c.full_content ∧
    to_optional_float row b.rank_col = .ok c.rank ∧
    to_optional_list row b.content_embedding_col .toFloat
      = .ok c.full_content_embedding ∧
    c.attributes = mkAttributes row b.attributes_cols := by
  unfold communityReportFromRow at h
  repeat' split at h
  all_goals try exact Except.noConfusion h
  injection h with h2
  subst h2
  refine ⟨?_, rfl, ?_, ?_, ?_, ?_, ?_, ?_, rfl⟩ <;> assumption

/-- Field projections of a successfully constructed TextUnit. -/
theorem textUnitFromRow_ok (b : TextUnitBindings) (row : Row)
    (t : TextUnit) (h : textUnitFromRow b row = .ok t) :
    to_str row (some b.id_col) = .ok t.id ∧
    t.short_id = some (indexStr row) ∧
    to_str row (some b.text_col) = .ok t.text ∧
    to_optional_list row b.entities_col .toStr = .ok t.entity_ids ∧
    to_optional_list row b.relationships_col .toStr = .ok t.relationship_ids ∧
    to_optional_dict row b.covariates_col = .ok t.covariate_ids ∧
    to_optional_int row b.tokens_col = .ok t.n_tokens ∧
    to_optional_list row b.document_ids_col .toStr = .ok t.document_ids ∧
    t.attributes = mkAttributes row b.attributes_cols := by
  unfold textUnitFromRow at h
  repeat' split at h
  all_goals try exact Except.noConfusion h
  injection h with h2
  subst h2
  refine ⟨?_, rfl, ?_, ?_, ?_, ?_, ?_, ?_, rfl⟩ <;> assumption

/-- C10: calling any of the six loaders on a table with zero rows returns the
empty list without raising, regardless of the column bindings — even when a
required bound column is absent from the schema — because column existence is
only checked per row inside the row-wise comprehension. -/
theorem empty_table_all_loaders :
    (∀ b : EntityBindings, read_entities [] b = .ok []) ∧
    (∀ b : RelationshipBindings, read_relationships [] b = .ok []) ∧
    (∀ b : CovariateBindings, read_covariates [] b = .ok []) ∧
    (∀ b : CommunityBindings, read_communities [] b = .ok []) ∧
    (∀ b : CommunityReportBindings, read_community_reports [] b = .ok []) ∧
    (∀ b : TextUnitBindings, read_text_units [] b = .ok []) :=
  ⟨fun _ => rfl, fun _ => rfl, fun _ => rfl,
   fun _ => rfl, fun _ => rfl, fun _ => rfl⟩

/-- C4: for every table with N rows and every loader, a successful load
returns exactly N objects, and the i-th object is the one constructed from
the i-th row (output order matches input row order). -/
theorem loaders_length_and_order :
    (∀ (df : List Row) (b : EntityBindings) (l : List Entity),
      read_entities df b = .ok l →
      l.length = df.length ∧
      ∀ (i : Nat) (h1 : i < df.length) (h2 : i < l.length),
        entityFromRow b (withIndex i (df.get ⟨i, h1⟩)) = .ok (l.get ⟨i, h2⟩)) ∧
    (∀ (df : List Row) (b : RelationshipBindings) (l : List Relationship),
      read_relationships df b = .ok l →
      l.length = df.length ∧
      ∀ (i : Nat) (h1 : i < df.length) (h2 : i < l.length),
        relationshipFromRow b (withIndex i (df.get ⟨i, h1⟩))
          = .ok (l.get ⟨i, h2⟩)) ∧
    (∀ (df : List Row) (b : CovariateBindings) (l : List Covariate),
      read_covariates df b = .ok l →
      l.length = df.length ∧
      ∀ (i : Nat) (h1 : i < df.length) (h2 : i < l.length),
        covariateFromRow b (withIndex i (df.get ⟨i, h1⟩)) = .ok (l.get ⟨i, h2⟩)) ∧
    (∀ (df : List Row) (b : CommunityBindings) (l : List Community),
      read_communities df b = .ok l →
      l.length = df.length ∧
      ∀ (i : Nat) (h1 : i < df.length) (h2 : i < l.length),
        communityFromRow b (withIndex i (df.get ⟨i, h1⟩)) = .ok (l.get ⟨i, h2⟩)) ∧
    (∀ (df : List Row) (b : CommunityReportBindings) (l : List CommunityReport),
      read_community_reports df b = .ok l →
      l.length = df.length ∧
      ∀ (i : Nat) (h1 : i < df.length) (h2 : i < l.length),
        communityReportFromRow b (withIndex i (df.get ⟨i, h1⟩))
          = .ok (l.get ⟨i, h2⟩)) ∧
    (∀ (df : List Row) (b : TextUnitBindings) (l : List TextUnit),
      read_text_units df b = .ok l →
      l.length = df.length ∧
      ∀ (i : Nat) (h1 : i < df.length) (h2 : i < l.length),
        textUnitFromRow b (withIndex i (df.get ⟨i, h1⟩)) = .ok (l.get ⟨i, h2⟩)) :=
  ⟨fun _ _ _ h => mapE_prepare_ok h, fun _ _ _ h => mapE_prepare_ok h,
   fun _ _ _ h => mapE_prepare_ok h, fun _ _ _ h => mapE_prepare_ok h,
   fun _ _ _ h => mapE_prepare_ok h, fun _ _ _ h => mapE_prepare_ok h⟩

/-- A one-row table with only id and title columns. -/
def exEntityDf : List Row :=
  [[("id", Value.vstr "e1"), ("title", Value.vstr "A")]]

/-- Entity bindings with every optional column unbound. -/
def exEntityBindings : EntityBindings :=
  ⟨"id", none, "title", none, none, none, none, none, none, none, none⟩

/-- The Entity list produced from exEntityDf under exEntityBindings. -/
def exEntityOut : List Entity :=
  [⟨"e1", some "0", "A", none, none, none, none, none, none, none, none⟩]

theorem loaders_length_and_order_witness :
    entityFromRow exEntityBindings
        (withIndex 0 (exEntityDf.get ⟨0, by decide⟩))
      = .ok (exEntityOut.get ⟨0, by decide⟩) :=
  (loaders_length_and_order.1 exEntityDf exEntityBindings exEntityOut
    rfl).2 0 (by decide) (by decide)

/-- C9: read_text_units sets every produced short_id to the stringified row
position of the index-reset table; the statement holds for all values of
every binding parameter of read_text_units, none of which can configure
short_id. -/
theorem text_unit_short_id_always_index :
    ∀ (df : List Row) (b : TextUnitBindings) (l : List TextUnit),
      read_text_units df b = .ok l →
      ∀ (i : Nat) (h1 : i < df.length) (h2 : i < l.length),
        (l.get ⟨i, h2⟩).short_id = some (toString i) := by
  intro df b l h i h1 h2
  have hs := mapE_prepare_ok h
  have hrow := hs.2 i h1 h2
  have hproj := textUnitFromRow_ok b _ _ hrow
  rw [hproj.2.1, indexStr_withIndex]

/-- A one-row table with only id and text columns. -/
def exTextUnitDf : List Row :=
  [[("id", Value.vstr "t"), ("text", Value.vstr "hello")]]

/-- The TextUnit list produced from exTextUnitDf under default bindings. -/
def exTextUnitOut : List TextUnit :=
  [⟨"t", some "0", "hello", none, none, none, none, none,
    some [("metadata", Value.vnull)]⟩]

theorem text_unit_short_id_always_index_witness :
    (exTextUnitOut.get ⟨0, by decide⟩).short_id = some (toString 0) :=
  text_unit_short_id_always_index exTextUnitDf defaultTextUnitBindings
    exTextUnitOut rfl 0 (by decide) (by decide)

theorem shortIdOf_not_truthy (row : Row) (col : Option String)
    (h : truthyStr col = false) : shortIdOf row col = some (indexStr row) := by
  simp [shortIdOf, h]

theorem shortIdOf_truthy_absent (row : Row) (s : String) (h : s ≠ "")
    (habs : rowLookup row s = none) : shortIdOf row (some s) = none := by
  have ht : truthyStr (some s) = true := by simp [truthyStr, h]
  simp [shortIdOf, ht, to_optional_str, habs]

/-- C1 counterexample: with the default bindings (short_id column configured
as human_readable_id) on a one-row table lacking that column, the produced
short_id is null, not the stringified row position. -/
theorem short_id_fallback_counterexample :
    read_entities [[("id", Value.vstr "e1"), ("title", Value.vstr "A")]]
        defaultEntityBindings
      = .ok [⟨"e1", none, "A", none, none, none, none, none, none, none, none⟩] ∧
    (none : Option String) ≠ some (toString 0) :=
  ⟨rfl, by decide⟩

/-- C1 (amended): when the short_id column binding is not truthy (null or the
empty string), every loader sets the i-th produced objects short_id to the
stringified zero-based row position of the index-reset table (read_text_units
does so unconditionally); when a truthy column is configured but the row
lacks that column, short_id is null rather than the row position. -/
theorem short_id_fallback_amended :
    (∀ (df : List Row) (b : EntityBindings) (l : List Entity),
      truthyStr b.short_id_col = false → read_entities df b = .ok l →
      ∀ (i : Nat) (h1 : i < df.length) (h2 : i < l.length),
        (l.get ⟨i, h2⟩).short_id = some (toString i)) ∧
    (∀ (df : List Row) (b : RelationshipBindings) (l : List Relationship),
      truthyStr b.short_id_col = false → read_relationships df b = .ok l →
      ∀ (i : Nat) (h1 : i < df.length) (h2 : i < l.length),
        (l.get ⟨i, h2⟩).short_id = some (toString i)) ∧
    (∀ (df : List Row) (b : CovariateBindings) (l : List Covariate),
      truthyStr b.short_id_col = false → read_covariates df b = .ok l →
      ∀ (i : Nat) (h1 : i < df.length) (h2 : i < l.length),
        (l.get ⟨i, h2⟩).short_id = some (toString i)) ∧
    (∀ (df : List Row) (b : CommunityBindings) (l : List Community),
      truthyStr b.short_id_col = false → read_communities df b = .ok l →
      ∀ (i : Nat) (h1 : i < df.length) (h2 : i < l.length),
        (l.get ⟨i, h2⟩).short_id = some (toString i)) ∧
    (∀ (df : List Row) (b : CommunityReportBindings) (l : List CommunityReport),
      truthyStr b.short_id_col = false → read_community_reports df b = .ok l →
      ∀ (i : Nat) (h1 : i < df.length) (h2 : i < l.length),
        (l.get ⟨i, h2⟩).short_id = some (toString i)) ∧
    (∀ (df : List Row) (b : TextUnitBindings) (l : List TextUnit),
      read_text_units df b = .ok l →
      ∀ (i : Nat) (h1 : i < df.length) (h2 : i < l.length),
        (l.get ⟨i, h2⟩).short_id = some (toString i)) ∧
    (∀ (df : List Row) (b : EntityBindings) (l : List Entity) (s : String),
      b.short_id_col = some s → s ≠ "" → read_entities df b = .ok l →
      ∀ (i : Nat) (h1 : i < df.length) (h2 : i < l.length),
        rowLookup (withIndex i (df.get ⟨i, h1⟩)) s = none →
        (l.get ⟨i, h2⟩).short_id = none) := by
  refine ⟨?_, ?_, ?_, ?_, ?_, ?_, ?_⟩
  · intro df b l ht h i h1 h2
    have hrow := (mapE_prepare_ok h).2 i h1 h2
    have hproj := entityFromRow_ok b _ _ hrow
    rw [hproj.2.1, shortIdOf_not_truthy _ _ ht, indexStr_withIndex]
  · intro df b l ht h i h1 h2
    have hrow := (mapE_prepare_ok h).2 i h1 h2
    have hproj := relationshipFromRow_ok b _ _ hrow
    rw [hproj.2.1, shortIdOf_not_truthy _ _ ht, indexStr_withIndex]
  · intro df b l ht h i h1 h2
    have hrow := (mapE_prepare_ok h).2 i h1 h2
    have hproj := covariateFromRow_ok b _ _ hrow
    rw [hproj.2.1, shortIdOf_not_truthy _ _ ht, indexStr_withIndex]
  · intro df b l ht h i h1 h2
    have hrow := (mapE_prepare_ok h).2 i h1 h2
    have hproj := communityFromRow_ok b _ _ hrow
    rw [hproj.2.1, shortIdOf_not_truthy _ _ ht, indexStr_withIndex]
  · intro df b l ht h i h1 h2
    have hrow := (mapE_prepare_ok h).2 i h1 h2
    have hproj := communityReportFromRow_ok b _ _ hrow
    rw [hproj.2.1, shortIdOf_not_truthy _ _ ht, indexStr_withIndex]
  · intro df b l h i h1 h2
    have hrow := (mapE_prepare_ok h).2 i h1 h2
    have hproj := textUnitFromRow_ok b _ _ hrow
    rw [hproj.2.1, indexStr_withIndex]
  · intro df b l s hb hne h i h1 h2 habs
    have hrow := (mapE_prepare_ok h).2 i h1 h2
    have hproj := entityFromRow_ok b _ _ hrow
    rw [hproj.2.1, hb, shortIdOf_truthy_absent _ _ hne habs]

theorem short_id_fallback_amended_witness :
    (exEntityOut.get ⟨0, by decide⟩).short_id = some (toString 0) :=
  short_id_fallback_amended.1 exEntityDf exEntityBindings exEntityOut
    rfl rfl 0 (by decide) (by decide)

theorem ctypeOf_not_truthy (row : Row) (col : Option String)
    (h : truthyStr col = false) : ctypeOf row col = .ok "claim" := by
  simp [ctypeOf, h]

/-- C2 counterexample: read_covariates with its default bindings (which bind
covariate_type to the column type) on a one-row table whose columns are
exactly id and subject_id does not succeed with covariate_type claim: it
raises MissingColumnError for the type column. -/
theorem covariate_type_counterexample :
    read_covariates [[("id", Value.vstr "c1"), ("subject_id", Value.vstr "s1")]]
        defaultCovariateBindings
      = .error (.missingColumn "type") := rfl

/-- C2 (amended): when the covariate_type column binding is not truthy (null
or empty, rather than the default type), every produced Covariate of a
successful read_covariates call has covariate_type equal to the literal
claim; with the default binding on a table lacking a type column the load
instead fails with MissingColumnError. -/
theorem covariate_type_claim_amended :
    ∀ (df : List Row) (b : CovariateBindings) (l : List Covariate),
      truthyStr b.covariate_type_col = false → read_covariates df b = .ok l →
      ∀ (i : Nat) (h1 : i < df.length) (h2 : i < l.length),
        (l.get ⟨i, h2⟩).covariate_type = "claim" := by
  intro df b l ht h i h1 h2
  have hrow := (mapE_prepare_ok h).2 i h1 h2
  have hproj := covariateFromRow_ok b _ _ hrow
  have hct := hproj.2.2.2.1
  rw [ctypeOf_not_truthy _ _ ht] at hct
  injection hct with h3
  exact h3.symm

/-- A one-row covariate table with only id and subject_id columns. -/
def exCovariateDf : List Row :=
  [[("id", Value.vstr "c1"), ("subject_id", Value.vstr "s1")]]

/-- Covariate bindings with every optional column unbound. -/
def exCovariateBindings : CovariateBindings :=
  ⟨"id", none, "subject_id", none, none, none⟩

/-- The Covariate list produced from exCovariateDf under exCovariateBindings. -/
def exCovariateOut : List Covariate :=
  [⟨"c1", some "0", "s1", "claim", none, none⟩]

theorem covariate_type_claim_amended_witness :
    (exCovariateOut.get ⟨0, by decide⟩).covariate_type = "claim" :=
  covariate_type_claim_amended exCovariateDf exCovariateBindings exCovariateOut
    rfl rfl 0 (by decide) (by decide)

/-- C3: per-field error characterization and the missing-source example —
required-string coercion fails with MissingColumnError exactly when the bound
column is absent from the row schema and with CoercionError exactly when the
present cell is null; optional-int coercion fails with CoercionError exactly
when a present, non-null cell is not numeric; and read_relationships on a
non-empty table whose first row resolves its id but lacks the column bound to
source_col fails with MissingColumnError for that column. -/
theorem load_error_conditions :
    (∀ (row : Row) (c : String),
      to_str row (some c) = .error (.missingColumn c) ↔ rowLookup row c = none) ∧
    (∀ (row : Row) (c : String),
      to_str row (some c) = .error (.coercion c) ↔
        rowLookup row c = some .vnull) ∧
    (∀ (row : Row) (c : String) (v : Value), rowLookup row c = some v →
      (to_optional_int row (some c) = .error (.coercion c) ↔
        (v ≠ .vnull ∧ valueToInt v = none))) ∧
    (∀ (r : Row) (rs : List Row) (b : RelationshipBindings) (x : String),
      to_str (withIndex 0 r) (some b.id_col) = .ok x →
      rowLookup (withIndex 0 r) b.source_col = none →
      read_relationships (r :: rs) b = .error (.missingColumn b.source_col)) := by
  refine ⟨?_, ?_, ?_, ?_⟩
  · intro row c
    cases hv : rowLookup row c with
    | none => simp [to_str, hv]
    | some v => cases v <;> simp [to_str, hv]
  · intro row c
    cases hv : rowLookup row c with
    | none => simp [to_str, hv]
    | some v => cases v <;> simp [to_str, hv]
  · intro row c v hv
    cases v with
    | vnull => simp [to_optional_int, hv]
    | vstr s =>
      cases hs : s.toInt? with
      | none => simp [to_optional_int, hv, valueToInt, hs]
      | some n => simp [to_optional_int, hv, valueToInt, hs]
    | vint n => simp [to_optional_int, hv, valueToInt]
    | vfloat n => simp [to_optional_int, hv, valueToInt]
    | vlist vs => simp [to_optional_int, hv, valueToInt]
    | vdict kvs => simp [to_optional_int, hv, valueToInt]
  · intro r rs b x hid hsrc
    have hs : to_str (withIndex 0 r) (some b.source_col)
        = .error (.missingColumn b.source_col) := by
      simp [to_str, hsrc]
    have hrow : relationshipFromRow b (withIndex 0 r)
        = .error (.missingColumn b.source_col) := by
      unfold relationshipFromRow
      rw [hid, hs]
    show mapE (relationshipFromRow b) (_prepare_records (r :: rs)) = _
    have hp : _prepare_records (r :: rs) = withIndex 0 r :: prepareFrom 1 rs := rfl
    rw [hp]
    simp [mapE, hrow]

theorem load_error_conditions_witness :
    read_relationships [[("id", Value.vstr "r1"), ("target", Value.vstr "b")]]
        defaultRelationshipBindings
      = .error (.missingColumn defaultRelationshipBindings.source_col) :=
  load_error_conditions.2.2.2
    [("id", Value.vstr "r1"), ("target", Value.vstr "b")] []
    defaultRelationshipBindings "r1" rfl rfl

/-- C5: read_communities produces an empty children list, not null and not an
error, both when the children column binding is null and when the bound
column is absent from the row. -/
theorem community_children_empty_default :
    (∀ (df : List Row) (b : CommunityBindings) (l : List Community),
      b.children_col = none → read_communities df b = .ok l →
      ∀ (i : Nat) (h2 : i < l.length), (l.get ⟨i, h2⟩).children = []) ∧
    (∀ (df : List Row) (b : CommunityBindings) (l : List Community) (s : String),
      b.children_col = some s → read_communities df b = .ok l →
      ∀ (i : Nat) (h1 : i < df.length) (h2 : i < l.length),
        rowLookup (withIndex i (df.get ⟨i, h1⟩)) s = none →
        (l.get ⟨i, h2⟩).children = []) := by
  constructor
  · intro df b l hb h i h2
    have hs := mapE_prepare_ok h
    have h1 : i < df.length := hs.1 ▸ h2
    have hrow := hs.2 i h1 h2
    have hproj := communityFromRow_ok b _ _ hrow
    have hch := hproj.2.2.2.2.2.2.2.2.1
    rw [hb] at hch
    have he : to_list (withIndex i (df.get ⟨i, h1⟩)) none .passthrough
        = .ok [] := rfl
    rw [he] at hch
    injection hch with h3
    exact h3.symm
  · intro df b l s hb h i h1 h2 habs
    have hs := mapE_prepare_ok h
    have hrow := hs.2 i h1 h2
    have hproj := communityFromRow_ok b _ _ hrow
    have hch := hproj.2.2.2.2.2.2.2.2.1
    rw [hb] at hch
    have he : to_list (withIndex i (df.get ⟨i, h1⟩)) (some s) .passthrough
        = .ok [] := by
      simp only [List.get_eq_getElem] at habs
      simp [to_list, habs]
    rw [he] at hch
    injection hch with h3
    exact h3.symm

/-- A one-row community table with no children column. -/
def exCommunityDf : List Row :=
  [[("id", Value.vstr "x"), ("title", Value.vstr "T"),
    ("level", Value.vstr "0"), ("parent", Value.vstr "p")]]

/-- Community bindings keeping parent bound but everything optional unbound. -/
def exCommunityBindings : CommunityBindings :=
  ⟨"id", none, "title", "level", none, none, none, some "parent", none, none⟩

/-- The Community list produced from exCommunityDf under exCommunityBindings. -/
def exCommunityOut : List Community :=
  [⟨"x", some "0", "T", "0", none, none, none, "p", [], none⟩]

theorem community_children_empty_default_witness :
    (exCommunityOut.get ⟨0, by decide⟩).children = [] :=
  community_children_empty_default.1 exCommunityDf exCommunityBindings
    exCommunityOut rfl rfl 0 (by decide)

/-- C6: a scalar cell bound to an optional-list field is wrapped into a
single-element list instead of failing, both at the coercion level and
through read_entities for the text_unit_ids field. -/
theorem optional_list_scalar_wrap :
    (∀ (row : Row) (c : String) (s : String),
      rowLookup row c = some (.vstr s) →
      to_optional_list row (some c) .passthrough = .ok (some [.sstr s]) ∧
      to_optional_list row (some c) .toStr = .ok (some [.sstr s])) ∧
    (∀ (df : List Row) (b : EntityBindings) (l : List Entity)
        (c : String) (s : String),
      b.text_unit_ids_col = some c → read_entities df b = .ok l →
      ∀ (i : Nat) (h1 : i < df.length) (h2 : i < l.length),
        rowLookup (withIndex i (df.get ⟨i, h1⟩)) c = some (.vstr s) →
        (l.get ⟨i, h2⟩).text_unit_ids = some [.sstr s]) := by
  constructor
  · intro row c s hv
    constructor <;>
      simp [to_optional_list, hv, asScalar, coerceItem, scalarToString]
  · intro df b l c s hb h i h1 h2 hv
    have hrow := (mapE_prepare_ok h).2 i h1 h2
    have hproj := entityFromRow_ok b _ _ hrow
    have htu := hproj.2.2.2.2.2.2.2.2.1
    rw [hb] at htu
    have he : to_optional_list (withIndex i (df.get ⟨i, h1⟩)) (some c)
        .passthrough = .ok (some [.sstr s]) := by
      simp only [List.get_eq_getElem] at hv
      simp [to_optional_list, hv, asScalar, coerceItem]
    rw [he] at htu
    injection htu with h3
    exact h3.symm

/-- A one-row entity table whose text_unit_ids cell holds a bare scalar. -/
def exScalarWrapDf : List Row :=
  [[("id", Value.vstr "e1"), ("title", Value.vstr "A"),
    ("text_unit_ids", Value.vstr "t1")]]

/-- Entity bindings binding only text_unit_ids among the optional columns. -/
def exScalarWrapBindings : EntityBindings :=
  ⟨"id", none, "title", none, none, none, none, none,
   some "text_unit_ids", none, none⟩

/-- The Entity list produced from exScalarWrapDf under exScalarWrapBindings. -/
def exScalarWrapOut : List Entity :=
  [⟨"e1", some "0", "A", none, none, none, none, none,
    some [.sstr "t1"], none, none⟩]

theorem optional_list_scalar_wrap_witness :
    (exScalarWrapOut.get ⟨0, by decide⟩).text_unit_ids = some [.sstr "t1"] :=
  optional_list_scalar_wrap.2 exScalarWrapDf exScalarWrapBindings
    exScalarWrapOut "text_unit_ids" "t1" rfl rfl 0 (by decide) (by decide) rfl

/-- C7: a non-empty attributes_cols list yields, for every loader and row, an
attributes mapping copying the raw cell value of each listed column with no
coercion, a missing column contributing a null value rather than an error;
in particular attributes_cols foo on a table lacking foo yields the mapping
foo to null for every row of read_entities. -/
theorem attributes_passthrough :
    (∀ (row : Row) (cs : List String), cs ≠ [] →
      mkAttributes row (some cs)
        = some (cs.map (fun c => (c, (rowLookup row c).getD .vnull)))) ∧
    (∀ (df : List Row) (b : EntityBindings) (l : List Entity),
      read_entities df b = .ok l →
      ∀ (i : Nat) (h1 : i < df.length) (h2 : i < l.length),
        (l.get ⟨i, h2⟩).attributes
          = mkAttributes (withIndex i (df.get ⟨i, h1⟩)) b.attributes_cols) ∧
    (∀ (df : List Row) (b : RelationshipBindings) (l : List Relationship),
      read_relationships df b = .ok l →
      ∀ (i : Nat) (h1 : i < df.length) (h2 : i < l.length),
        (l.get ⟨i, h2⟩).attributes
          = mkAttributes (withIndex i (df.get ⟨i, h1⟩)) b.attributes_cols) ∧
    (∀ (df : List Row) (b : CovariateBindings) (l : List Covariate),
      read_covariates df b = .ok l →
      ∀ (i : Nat) (h1 : i < df.length) (h2 : i < l.length),
        (l.get ⟨i, h2⟩).attributes
          = mkAttributes (withIndex i (df.get ⟨i, h1⟩)) b.attributes_cols) ∧
    (∀ (df : List Row) (b : CommunityBindings) (l : List Community),
      read_communities df b = .ok l →
      ∀ (i : Nat) (h1 : i < df.length) (h2 : i < l.length),
        (l.get ⟨i, h2⟩).attributes
          = mkAttributes (withIndex i (df.get ⟨i, h1⟩)) b.attributes_cols) ∧
    (∀ (df : List Row) (b : CommunityReportBindings) (l : List CommunityReport),
      read_community_reports df b = .ok l →
      ∀ (i : Nat) (h1 : i < df.length) (h2 : i < l.length),
        (l.get ⟨i, h2⟩).attributes
          = mkAttributes (withIndex i (df.get ⟨i, h1⟩)) b.attributes_cols) ∧
    (∀ (df : List Row) (b : TextUnitBindings) (l : List TextUnit),
      read_text_units df b = .ok l →
      ∀ (i : Nat) (h1 : i < df.length) (h2 : i < l.length),
        (l.get ⟨i, h2⟩).attributes
          = mkAttributes (withIndex i (df.get ⟨i, h1⟩)) b.attributes_cols) ∧
    (∀ (df : List Row) (b : EntityBindings) (l : List Entity),
      b.attributes_cols = some ["foo"] → read_entities df b = .ok l →
      ∀ (i : Nat) (h1 : i < df.length) (h2 : i < l.length),
        rowLookup (withIndex i (df.get ⟨i, h1⟩)) "foo" = none →
        (l.get ⟨i, h2⟩).attributes = some [("foo", Value.vnull)]) := by
  refine ⟨?_, ?_, ?_, ?_, ?_, ?_, ?_, ?_⟩
  · intro row cs hne
    cases cs with
    | nil => exact absurd rfl hne
    | cons c cs => rfl
  · intro df b l h i h1 h2
    exact (entityFromRow_ok b _ _
      ((mapE_prepare_ok h).2 i h1 h2)).2.2.2.2.2.2.2.2.2.2
  · intro df b l h i h1 h2
    exact (relationshipFromRow_ok b _ _
      ((mapE_prepare_ok h).2 i h1 h2)).2.2.2.2.2.2.2.2.2
  · intro df b l h i h1 h2
    exact (covariateFromRow_ok b _ _
      ((mapE_prepare_ok h).2 i h1 h2)).2.2.2.2.2
  · intro df b l h i h1 h2
    exact (communityFromRow_ok b _ _
      ((mapE_prepare_ok h).2 i h1 h2)).2.2.2.2.2.2.2.2.2
  · intro df b l h i h1 h2
    exact (communityReportFromRow_ok b _ _
      ((mapE_prepare_ok h).2 i h1 h2)).2.2.2.2.2.2.2.2
  · intro df b l h i h1 h2
    exact (textUnitFromRow_ok b _ _
      ((mapE_prepare_ok h).2 i h1 h2)).2.2.2.2.2.2.2.2
  · intro df b l hb h i h1 h2 habs
    have hattr := (entityFromRow_ok b _ _
      ((mapE_prepare_ok h).2 i h1 h2)).2.2.2.2.2.2.2.2.2.2
    rw [hb] at hattr
    rw [hattr]
    simp only [List.get_eq_getElem] at habs
    simp [mkAttributes, habs]

/-- A one-row entity table lacking a foo column. -/
def exAttrDf : List Row :=
  [[("id", Value.vstr "e1"), ("title", Value.vstr "A")]]

/-- Entity bindings requesting attributes pass-through of the foo column. -/
def exAttrBindings : EntityBindings :=
  ⟨"id", none, "title", none, none, none, none, none, none, none, some ["foo"]⟩

/-- The Entity list produced from exAttrDf under exAttrBindings. -/
def exAttrOut : List Entity :=
  [⟨"e1", some "0", "A", none, none, none, none, none, none, none,
    some [("foo", Value.vnull)]⟩]

theorem attributes_passthrough_witness :
    (exAttrOut.get ⟨0, by decide⟩).attributes = some [("foo", Value.vnull)] :=
  attributes_passthrough.2.2.2.2.2.2.2 exAttrDf exAttrBindings exAttrOut
    rfl rfl 0 (by decide) (by decide) rfl

/-- C8: read_communities produces parent via required-string coercion: on a
non-empty table, a null parent binding or a first row lacking the bound
parent column makes the whole load fail rather than yield a null parent. -/
theorem community_parent_required :
    ∀ (r : Row) (rs : List Row) (b : CommunityBindings),
      (b.parent_col = none ∨
        ∃ s, b.parent_col = some s ∧ rowLookup (withIndex 0 r) s = none) →
      (read_communities (r :: rs) b).isOk = false := by
  intro r rs b hcase
  cases hres : read_communities (r :: rs) b with
  | error e => rfl
  | ok l =>
    exfalso
    have hs := mapE_prepare_ok hres
    have hlen : 0 < l.length := by
      rw [hs.1]
      simp
    have h1 : 0 < (r :: rs).length := by simp
    have hrow := hs.2 0 h1 hlen
    have hget : (r :: rs).get ⟨0, h1⟩ = r := rfl
    rw [hget] at hrow
    have hproj := communityFromRow_ok b _ _ hrow
    have hpar := hproj.2.2.2.2.2.2.2.1
    cases hcase with
    | inl hnone =>
      rw [hnone] at hpar
      exact Except.noConfusion hpar
    | inr hsome =>
      obtain ⟨s, hcol, habs⟩ := hsome
      rw [hcol] at hpar
      have he : to_str (withIndex 0 r) (some s) = .error (.missingColumn s) := by
        simp [to_str, habs]
      rw [he] at hpar
      exact Except.noConfusion hpar

theorem community_parent_required_witness :
    (read_communities [[("id", Value.vstr "x"), ("title", Value.vstr "T"),
        ("level", Value.vstr "0")]] defaultCommunityBindings).isOk = false :=
  community_parent_required
    [("id", Value.vstr "x"), ("title", Value.vstr "T"),
     ("level", Value.vstr "0")] [] defaultCommunityBindings
    (Or.inr ⟨"parent", rfl, rfl⟩)

end GraphRag
